import Mathlib

/-!
# ESP32_Read_DS18B20: the sketch `src/main.cpp`

A shallow embedding of the sketch.  The sensor driver (`sensors`, a
`DallasTemperature` object on a `OneWire` bus) is an external collaborator: it
is a parameter, a record of state-passing operations over an arbitrary driver
state `σ`.  Every call into the driver, every `Serial` call and every runtime
call (`delay`, `esp_deep_sleep_start`) is logged, in program order, as an
`Event`; the sketch's functions return the events they produce together with
the new values of the globals.
-/

namespace DS18B20

/-! ## Data model -/

/-- `typedef uint8_t DeviceAddress[8]`. -/
abbrev DeviceAddress := Fin 8 → Fin 256

/-- `#define TEMPERATURE_PRECISION 12`. -/
def TEMPERATURE_PRECISION : Nat := 12

/-- The print bases of the Arduino core. -/
def DEC : Nat := 10

/-- The hexadecimal print base of the Arduino core. -/
def HEX : Nat := 16

/-- One observable action of the sketch, in program order. -/
inductive Event where
  /-- `Serial.begin(baud)` -/
  | serialBegin (baud : Nat)
  /-- `Serial.print("text")` -/
  | print (text : String)
  /-- `Serial.println("text")`; `Serial.println()` is `println ""` -/
  | println (text : String)
  /-- `Serial.print(value, base)` -/
  | printNum (value base : Nat)
  /-- `Serial.println(value, base)` -/
  | printlnNum (value base : Nat)
  /-- `Serial.println(value)` on a `float` -/
  | printlnFloat (value : ℚ)
  /-- `Serial.flush()` -/
  | serialFlush
  /-- `sensors.begin()` -/
  | sensorsBegin
  /-- `sensors.getDeviceCount()` and the count it returned -/
  | getDeviceCount (count : Nat)
  /-- `sensors.isParasitePowerMode()` and its answer -/
  | isParasitePowerMode (parasite : Bool)
  /-- `sensors.getAddress(tempDeviceAddress, index)` and its answer -/
  | getAddress (index : Nat) (ok : Bool)
  /-- `sensors.setResolution(address, bits)` -/
  | setResolution (address : DeviceAddress) (bits : Nat)
  /-- `sensors.getResolution(address)` and the resolution it returned -/
  | getResolution (address : DeviceAddress) (bits : Nat)
  /-- `sensors.requestTemperatures()` -/
  | requestTemperatures
  /-- `sensors.getTempC(address)` and the Celsius value it returned -/
  | getTempC (address : DeviceAddress) (celsius : ℚ)
  /-- `delay(ms)` -/
  | delay (ms : Nat)
  /-- `esp_deep_sleep_start()`, which does not return -/
  | deepSleepStart

/-- The sensor driver the sketch talks to, over a driver/bus state `σ`.
`getDeviceCount` returns a `uint8_t`, `getAddress` gets the caller's buffer and
the `uint8_t` index and returns its verdict, the buffer afterwards and the new
state. -/
structure Sensors (σ : Type) where
  begin : σ → σ
  getDeviceCount : σ → Nat
  isParasitePowerMode : σ → Bool
  getAddress : σ → DeviceAddress → Nat → Bool × DeviceAddress × σ
  setResolution : σ → DeviceAddress → Nat → σ
  getResolution : σ → DeviceAddress → Nat × σ
  requestTemperatures : σ → σ
  getTempC : σ → DeviceAddress → ℚ × σ

/-- The globals of the sketch together with the driver state. -/
structure Sketch (σ : Type) where
  sensors : σ
  numberOfDevices : Nat
  tempDeviceAddress : DeviceAddress

/-- What a run of a piece of the sketch leaves behind: the events, the globals,
and whether the firmware entered deep sleep (after which nothing runs). -/
structure Run (σ : Type) where
  events : List Event
  state : Sketch σ
  halted : Bool

/-! ## Arduino core and driver helpers -/

/-- The digit character of `Print::printNumber`:
`c < 10 ? c + '0' : c + 'A' - 10`. -/
def digitChar (c : Nat) : Char :=
  if c < 10 then Char.ofNat (c + 48) else Char.ofNat (c + 65 - 10)

/-- The `do ... while (n)` loop of `Print::printNumber`, writing digits from
the least significant one backwards into the buffer `str`. -/
def printNumberLoop (base : Nat) : Nat → Nat → List Char → List Char
  | 0, _, str => str
  | fuel + 1, n, str =>
    let c := n % base
    let n := n / base
    let str := digitChar c :: str
    if n ≠ 0 then printNumberLoop base fuel n str else str

/-- Modelled from the spec: `Serial.print(value, base)` belongs to the Arduino
core, which is not under src/.  It writes the digits of `value` in `base`,
most significant first, without padding, letters in upper case
(`Print::printNumber`; a base below 2 is taken as 10). -/
def printNumber (n base : Nat) : List Char :=
  let base := if base < 2 then 10 else base
  printNumberLoop base (n + 1) n []

/-- The characters an event writes to the serial sink; `none` for the print of
a `float`, whose formatting is not modelled. -/
def Event.chars : Event → Option (List Char)
  | .print text => some text.data
  | .println text => some (text.data ++ ['\r', '\n'])
  | .printNum value base => some (printNumber value base)
  | .printlnNum value base => some (printNumber value base ++ ['\r', '\n'])
  | .printlnFloat _ => none
  | _ => some []

/-- The characters a sequence of events writes to the serial sink. -/
def written : List Event → Option (List Char)
  | [] => some []
  | e :: es =>
    match e.chars, written es with
    | some c, some cs => some (c ++ cs)
    | _, _ => none

/-- Modelled from the spec: `DallasTemperature::toFahrenheit` belongs to the
sensor library, which is not under src/.  "Fahrenheit = Celsius × 9/5 + 32",
over exact rationals. -/
def toFahrenheit (celsius : ℚ) : ℚ := celsius * 9 / 5 + 32

/-- Modelled from the spec: the decoding of a raw reading inside
`DallasTemperature::getTempC`, which is not under src/.  "raw sensor units are
already Celsius at 0.0625°C/LSB". -/
def rawToCelsius (raw : ℤ) : ℚ := raw * (625 / 10000)

/-! ## The sketch -/

/-- The loop of `printAddress`, from index `i` on. -/
def printAddressFrom (deviceAddress : DeviceAddress) (i : Nat) : List Event :=
  if h : i < 8 then
    (if (deviceAddress ⟨i, h⟩).val < 16 then [Event.print "0"] else [])
      ++ [Event.printNum (deviceAddress ⟨i, h⟩).val HEX]
      ++ printAddressFrom deviceAddress ((i + 1) % 256)
  else []
termination_by 8 - i
decreasing_by
  have h1 : (i + 1) % 256 = i + 1 := Nat.mod_eq_of_lt (by omega)
  omega

/-- `void printAddress(DeviceAddress deviceAddress)`. -/
def printAddress (deviceAddress : DeviceAddress) : List Event :=
  printAddressFrom deviceAddress 0

/-- The body of the discovery loop of `setup` at index `i`: the events it
produces and the globals afterwards. -/
def setupBody {σ : Type} (d : Sensors σ) (i : Nat) (s : Sketch σ) :
    List Event × Sketch σ :=
  let r := d.getAddress s.sensors s.tempDeviceAddress (i % 256)
  if r.1 then
    let addr := r.2.1
    let b1 := d.setResolution r.2.2 addr TEMPERATURE_PRECISION
    let g := d.getResolution b1 addr
    ([Event.getAddress (i % 256) true,
      Event.print "Found device ",
      Event.printNum i DEC,
      Event.print " with address: "]
      ++ printAddress addr
      ++ [Event.println "",
      Event.print "Setting resolution to ",
      Event.printlnNum TEMPERATURE_PRECISION DEC,
      Event.setResolution addr TEMPERATURE_PRECISION,
      Event.print "Resolution actually set to: ",
      Event.getResolution addr (g.1 % 256),
      Event.printNum (g.1 % 256) DEC,
      Event.println ""],
     { s with sensors := g.2, tempDeviceAddress := addr })
  else
    ([Event.getAddress (i % 256) false,
      Event.print "Found ghost device at ",
      Event.printNum i DEC,
      Event.print " but could not detect address. Check power and cabling"],
     { s with sensors := r.2.2, tempDeviceAddress := r.2.1 })

/-- The discovery loop of `setup`,
`for (int i = 0; i < numberOfDevices + 1; i++)`, from index `i` on. -/
def setupFor {σ : Type} (d : Sensors σ) (numberOfDevices : Nat) (i : Nat)
    (s : Sketch σ) : List Event × Sketch σ :=
  if i < numberOfDevices + 1 then
    let b := setupBody d i s
    let rest := setupFor d numberOfDevices (i + 1) b.2
    (b.1 ++ rest.1, rest.2)
  else ([], s)
termination_by numberOfDevices + 1 - i

/-- `void setup(void)`. -/
def setup {σ : Type} (d : Sensors σ) (s : Sketch σ) : Run σ :=
  let b0 := d.begin s.sensors
  let numberOfDevices := d.getDeviceCount b0 % 256
  let s1 : Sketch σ := { s with sensors := b0, numberOfDevices := numberOfDevices }
  let l := setupFor d s1.numberOfDevices 0 s1
  { events :=
      [Event.serialBegin 19200,
       Event.println "Start...",
       Event.sensorsBegin,
       Event.getDeviceCount numberOfDevices,
       Event.print "Locating devices...",
       Event.print "Found ",
       Event.printNum numberOfDevices DEC,
       Event.println " devices.",
       Event.print "Parasite power is: ",
       Event.isParasitePowerMode (d.isParasitePowerMode b0),
       Event.println (if d.isParasitePowerMode b0 then "ON" else "OFF")]
      ++ l.1 ++ [Event.delay 5000],
    state := l.2,
    halted := false }

/-- `void printTemperature(DeviceAddress deviceAddress)`: the events and the
driver state afterwards. -/
def printTemperature {σ : Type} (d : Sensors σ) (b : σ)
    (deviceAddress : DeviceAddress) : List Event × σ :=
  let t := d.getTempC b deviceAddress
  let tempC := t.1
  ([Event.getTempC deviceAddress tempC,
    Event.print "Temp C: ",
    Event.printlnFloat tempC,
    Event.print "Temp F: ",
    Event.printlnFloat (toFahrenheit tempC)],
   t.2)

/-- The read loop of `loop`,
`for (int i = 0; i < numberOfDevices + 1; i++)`, from index `i` on.  The
branch of a resolved address ends in `esp_deep_sleep_start()`, which does not
return: the run stops there, halted. -/
def loopFor {σ : Type} (d : Sensors σ) (numberOfDevices : Nat) (i : Nat)
    (s : Sketch σ) : Run σ :=
  if i < numberOfDevices + 1 then
    let r := d.getAddress s.sensors s.tempDeviceAddress (i % 256)
    if r.1 then
      let p := printTemperature d r.2.2 r.2.1
      { events :=
          [Event.getAddress (i % 256) true,
           Event.print "Temperature for device: ",
           Event.printlnNum i DEC]
          ++ p.1
          ++ [Event.delay 1000, Event.serialFlush, Event.deepSleepStart],
        state := { s with sensors := p.2, tempDeviceAddress := r.2.1 },
        halted := true }
    else
      let rest := loopFor d numberOfDevices (i + 1)
        { s with sensors := r.2.2, tempDeviceAddress := r.2.1 }
      { rest with events := Event.getAddress (i % 256) false :: rest.events }
  else { events := [], state := s, halted := false }
termination_by numberOfDevices + 1 - i

/-- `void loop(void)`: one read cycle. -/
def loop {σ : Type} (d : Sensors σ) (s : Sketch σ) : Run σ :=
  let b := d.requestTemperatures s.sensors
  let l := loopFor d s.numberOfDevices 0 { s with sensors := b }
  { l with events :=
      [Event.print "Requesting temperatures...",
       Event.requestTemperatures,
       Event.println "DONE"] ++ l.events }


/-! ## Observations on event traces -/

/-- The value of a hexadecimal digit character (upper case), if it is one. -/
def hexValue (c : Char) : Option Nat :=
  if '0' ≤ c ∧ c ≤ '9' then some (c.toNat - 48)
  else if 'A' ≤ c ∧ c ≤ 'F' then some (c.toNat - 65 + 10)
  else none

/-- The events of one round of the loop of `printAddress`, on the byte `b`. -/
def byteEvents (b : Fin 256) : List Event :=
  (if b.val < 16 then [Event.print "0"] else []) ++ [Event.printNum b.val HEX]

/-- The event is the broadcast conversion request. -/
def Event.isRequest : Event → Bool
  | .requestTemperatures => true
  | _ => false

/-- The event is a `getAddress` call. -/
def Event.isProbe : Event → Bool
  | .getAddress _ _ => true
  | _ => false

/-- The event is a `getTempC` call, a device read. -/
def Event.isRead : Event → Bool
  | .getTempC _ _ => true
  | _ => false

/-- The event is a `setResolution` or `getResolution` call. -/
def Event.isConfig : Event → Bool
  | .setResolution _ _ => true
  | .getResolution _ _ => true
  | _ => false

/-- The event opens a found-device report of `setup`. -/
def Event.isFoundReport : Event → Bool
  | .print text => text == "Found device "
  | _ => false

/-- The event opens a ghost-device report of `setup`. -/
def Event.isGhostReport : Event → Bool
  | .print text => text == "Found ghost device at "
  | _ => false

/-- The event opens a temperature reading of `loop`. -/
def Event.isReading : Event → Bool
  | .print text => text == "Temperature for device: "
  | _ => false

/-- What the discovery loop shows of itself: a probe of an index, a
found-device report, a ghost-device report. -/
inductive Mark where
  | probe (index : Nat)
  | found
  | ghost
  deriving DecidableEq

/-- The mark of an event, if it is a probe or opens a report. -/
def Event.mark : Event → Option Mark
  | .getAddress index _ => some (Mark.probe index)
  | .print text =>
    if text == "Found device " then some Mark.found
    else if text == "Found ghost device at " then some Mark.ghost
    else none
  | _ => none

/-! ## Concrete buses -/

/-- A bus without state that reports `count` devices and on which exactly the
indices satisfying `resolves` resolve, the device at index `i` having all
eight address bytes equal to `i`; every device confirms 12 bits and reads the
raw value 1940. -/
def staticSensors (count : Nat) (resolves : Nat → Bool) : Sensors Unit where
  begin := fun b => b
  getDeviceCount := fun _ => count
  isParasitePowerMode := fun _ => false
  getAddress := fun b buf index =>
    if resolves index then (true, fun _ => ⟨index % 256, Nat.mod_lt _ (by decide)⟩, b)
    else (false, buf, b)
  setResolution := fun b _ _ => b
  getResolution := fun b _ => (12, b)
  requestTemperatures := fun b => b
  getTempC := fun b _ => (rawToCelsius 1940, b)

/-- The bus of Scenario A: two devices reported, indices 0 and 1 resolve. -/
def twoDevices : Sensors Unit := staticSensors 2 (fun i => decide (i < 2))

/-- A bus that reports one device, on which index 0 does not resolve and
index 1 does. -/
def ghostThenValid : Sensors Unit := staticSensors 1 (fun i => i == 1)

/-- The globals at power-on: zero-initialised. -/
def powerOn : Sketch Unit :=
  { sensors := (), numberOfDevices := 0, tempDeviceAddress := fun _ => 0 }

/-! ## Unfolding the loops -/

theorem printNumber_hex_small (b : Nat) (h : b < 16) :
    printNumber b HEX = [digitChar b] := by
  have h1 : b % 16 = b := Nat.mod_eq_of_lt h
  have h2 : b / 16 = 0 := Nat.div_eq_of_lt h
  simp [printNumber, HEX, printNumberLoop, h1, h2]

theorem printNumber_hex_large (b : Nat) (h : 16 ≤ b) (h' : b < 256) :
    printNumber b HEX = [digitChar (b / 16), digitChar (b % 16)] := by
  have h1 : b / 16 ≠ 0 := by omega
  have h2 : b / 16 % 16 = b / 16 := Nat.mod_eq_of_lt (by omega)
  have h3 : b / 16 / 16 = 0 := Nat.div_eq_of_lt (by omega)
  obtain ⟨k, rfl⟩ : ∃ k, b = k + 1 := ⟨b - 1, by omega⟩
  simp [printNumber, HEX, printNumberLoop, h1, h2, h3]

theorem hexValue_digitChar (c : Nat) (h : c < 16) : hexValue (digitChar c) = some c := by
  interval_cases c <;> decide

theorem digitChar_zero : digitChar 0 = '0' := by decide

theorem written_append (xs ys : List Event) :
    written (xs ++ ys) = (written xs).bind (fun a => (written ys).map (fun b => a ++ b)) := by
  induction xs with
  | nil => simp [written]
  | cons e es ih =>
    have hw : written (e :: (es ++ ys)) =
        match e.chars, written (es ++ ys) with
        | some c, some cs => some (c ++ cs)
        | _, _ => none := rfl
    have hw2 : written (e :: es) =
        match e.chars, written es with
        | some c, some cs => some (c ++ cs)
        | _, _ => none := rfl
    rw [List.cons_append, hw, hw2, ih]
    cases e.chars <;> cases written es <;> cases written ys <;> simp

theorem printAddressFrom_step (a : DeviceAddress) (i : Nat) (h : i < 8) :
    printAddressFrom a i =
      (if (a ⟨i, h⟩).val < 16 then [Event.print "0"] else [])
        ++ [Event.printNum (a ⟨i, h⟩).val HEX] ++ printAddressFrom a (i + 1) := by
  rw [printAddressFrom]
  have h1 : (i + 1) % 256 = i + 1 := Nat.mod_eq_of_lt (by omega)
  simp [h, h1]

theorem printAddressFrom_done (a : DeviceAddress) (i : Nat) (h : ¬ i < 8) :
    printAddressFrom a i = [] := by
  rw [printAddressFrom]; simp [h]

theorem printAddress_eq (a : DeviceAddress) :
    printAddress a = (List.finRange 8).flatMap (fun i => byteEvents (a i)) := by
  have hr : List.finRange 8 = [0, 1, 2, 3, 4, 5, 6, 7] := by decide
  rw [hr]
  simp only [printAddress]
  rw [printAddressFrom_step a 0 (by omega), printAddressFrom_step a 1 (by omega),
    printAddressFrom_step a 2 (by omega), printAddressFrom_step a 3 (by omega),
    printAddressFrom_step a 4 (by omega), printAddressFrom_step a 5 (by omega),
    printAddressFrom_step a 6 (by omega), printAddressFrom_step a 7 (by omega),
    printAddressFrom_done a 8 (by omega)]
  simp only [List.flatMap_cons, List.flatMap_nil, byteEvents, List.append_nil, List.append_assoc]
  rfl

theorem written_byteEvents (b : Fin 256) :
    written (byteEvents b) = some [digitChar (b.val / 16), digitChar (b.val % 16)] := by
  unfold byteEvents
  split
  · rename_i h
    have h1 : b.val % 16 = b.val := Nat.mod_eq_of_lt h
    have h2 : b.val / 16 = 0 := Nat.div_eq_of_lt h
    simp [written, Event.chars, printNumber_hex_small _ h, h1, h2, digitChar_zero]
  · rename_i h
    simp [written, Event.chars, printNumber_hex_large _ (by omega) b.isLt]

theorem written_flatMap_byteEvents (l : List (Fin 8)) (a : DeviceAddress) :
    written (l.flatMap (fun i => byteEvents (a i))) =
      some (l.flatMap (fun i => [digitChar ((a i).val / 16), digitChar ((a i).val % 16)])) := by
  induction l with
  | nil => simp [written]
  | cons i l ih =>
    simp only [List.flatMap_cons, written_append, ih, written_byteEvents]
    simp

/-- Claim C1: for every 8-byte address, `printAddress` issues, for each byte
in order 0..7, a `"0"` when the byte is below 16 and then the unpadded
hexadecimal print of the byte; the characters written are exactly 16, two per
byte, and the two characters of a byte are hexadecimal digits whose values are
the byte's high and low nibble (so their value is the byte); the unpadded print
of a byte is one digit below 16 and two digits from 16 on. -/
theorem printAddress_sixteen_hex_digits (a : DeviceAddress) :
    printAddress a = (List.finRange 8).flatMap (fun i =>
      (if (a i).val < 16 then [Event.print "0"] else [])
        ++ [Event.printNum (a i).val HEX]) ∧
    written (printAddress a) = some ((List.finRange 8).flatMap (fun i =>
      [digitChar ((a i).val / 16), digitChar ((a i).val % 16)])) ∧
    ((List.finRange 8).flatMap (fun i =>
      [digitChar ((a i).val / 16), digitChar ((a i).val % 16)])).length = 16 ∧
    ∀ i : Fin 8,
      hexValue (digitChar ((a i).val / 16)) = some ((a i).val / 16) ∧
      hexValue (digitChar ((a i).val % 16)) = some ((a i).val % 16) ∧
      16 * ((a i).val / 16) + (a i).val % 16 = (a i).val ∧
      printNumber (a i).val HEX =
        (if (a i).val < 16 then [digitChar ((a i).val % 16)]
         else [digitChar ((a i).val / 16), digitChar ((a i).val % 16)]) := by
  refine ⟨printAddress_eq a, ?_, ?_, ?_⟩
  · rw [printAddress_eq, written_flatMap_byteEvents]
  · have hr : List.finRange 8 = [0, 1, 2, 3, 4, 5, 6, 7] := by decide
    rw [hr]; rfl
  · intro i
    have hb := (a i).isLt
    refine ⟨hexValue_digitChar _ (by omega), hexValue_digitChar _ (by omega), by omega, ?_⟩
    split
    · rename_i h
      rw [Nat.mod_eq_of_lt h]
      exact printNumber_hex_small _ h
    · rename_i h
      exact printNumber_hex_large _ (by omega) hb

theorem setupFor_step {σ : Type} (d : Sensors σ) (n i : Nat) (s : Sketch σ)
    (h : i < n + 1) :
    setupFor d n i s =
      ((setupBody d i s).1 ++ (setupFor d n (i + 1) (setupBody d i s).2).1,
       (setupFor d n (i + 1) (setupBody d i s).2).2) := by
  rw [setupFor]; simp [h]

theorem setupFor_done {σ : Type} (d : Sensors σ) (n i : Nat) (s : Sketch σ)
    (h : ¬ i < n + 1) : setupFor d n i s = ([], s) := by
  rw [setupFor]; simp [h]

theorem loopFor_done {σ : Type} (d : Sensors σ) (n i : Nat) (s : Sketch σ)
    (h : ¬ i < n + 1) :
    loopFor d n i s = { events := [], state := s, halted := false } := by
  rw [loopFor]; simp [h]

theorem loopFor_hit {σ : Type} (d : Sensors σ) (n i : Nat) (s : Sketch σ)
    (h : i < n + 1)
    (hok : (d.getAddress s.sensors s.tempDeviceAddress (i % 256)).1 = true) :
    loopFor d n i s =
      { events :=
          [Event.getAddress (i % 256) true,
           Event.print "Temperature for device: ",
           Event.printlnNum i DEC]
          ++ (printTemperature d
                (d.getAddress s.sensors s.tempDeviceAddress (i % 256)).2.2
                (d.getAddress s.sensors s.tempDeviceAddress (i % 256)).2.1).1
          ++ [Event.delay 1000, Event.serialFlush, Event.deepSleepStart],
        state :=
          { s with
            sensors := (printTemperature d
                (d.getAddress s.sensors s.tempDeviceAddress (i % 256)).2.2
                (d.getAddress s.sensors s.tempDeviceAddress (i % 256)).2.1).2,
            tempDeviceAddress :=
              (d.getAddress s.sensors s.tempDeviceAddress (i % 256)).2.1 },
        halted := true } := by
  rw [loopFor]; simp [h, hok]

theorem loopFor_miss {σ : Type} (d : Sensors σ) (n i : Nat) (s : Sketch σ)
    (h : i < n + 1)
    (hok : (d.getAddress s.sensors s.tempDeviceAddress (i % 256)).1 = false) :
    loopFor d n i s =
      { loopFor d n (i + 1)
          { s with
            sensors := (d.getAddress s.sensors s.tempDeviceAddress (i % 256)).2.2,
            tempDeviceAddress :=
              (d.getAddress s.sensors s.tempDeviceAddress (i % 256)).2.1 } with
        events := Event.getAddress (i % 256) false ::
          (loopFor d n (i + 1)
            { s with
              sensors := (d.getAddress s.sensors s.tempDeviceAddress (i % 256)).2.2,
              tempDeviceAddress :=
                (d.getAddress s.sensors s.tempDeviceAddress (i % 256)).2.1 }).events } := by
  rw [loopFor]; simp [h, hok]

theorem loopFor_no_request {σ : Type} (d : Sensors σ) (n : Nat) :
    ∀ (k i : Nat) (s : Sketch σ), n + 1 - i = k →
      ∀ e ∈ (loopFor d n i s).events, e.isRequest = false := by
  intro k
  induction k with
  | zero =>
    intro i s hk e he
    rw [loopFor_done d n i s (by omega)] at he
    simp at he
  | succ k ih =>
    intro i s hk e he
    have hi : i < n + 1 := by omega
    cases hok : (d.getAddress s.sensors s.tempDeviceAddress (i % 256)).1 with
    | true =>
      rw [loopFor_hit d n i s hi hok] at he
      simp [printTemperature] at he
      rcases he with h | h | h | h | h | h | h | h | h | h | h <;> rw [h] <;> rfl
    | false =>
      rw [loopFor_miss d n i s hi hok] at he
      simp only [List.mem_cons] at he
      rcases he with h | h
      · rw [h]; rfl
      · exact ih (i + 1) _ (by omega) e h

/-- Claim C7: for every bus state, one call of `loop` issues exactly one
broadcast conversion request, and whenever an event of the cycle is a
`getAddress` or a `getTempC` call, the request is among the events before
it. -/
theorem loop_one_request_before_reads {σ : Type} (d : Sensors σ) (s : Sketch σ) :
    (loop d s).events.countP Event.isRequest = 1 ∧
    ∀ (pre post : List Event) (e : Event),
      (loop d s).events = pre ++ e :: post →
      (e.isProbe = true ∨ e.isRead = true) →
      Event.requestTemperatures ∈ pre := by
  have hno := loopFor_no_request d s.numberOfDevices (s.numberOfDevices + 1 - 0) 0
    { s with sensors := d.requestTemperatures s.sensors } rfl
  constructor
  · have h0 : (loopFor d s.numberOfDevices 0
        { s with sensors := d.requestTemperatures s.sensors }).events.countP
          Event.isRequest = 0 := by
      rw [List.countP_eq_zero]
      intro e he
      simp [hno e he]
    simp [loop, List.countP_cons, Event.isRequest, h0]
  · intro pre post e hsplit he
    simp only [loop, List.cons_append, List.nil_append] at hsplit
    cases pre with
    | nil =>
      simp only [List.nil_append, List.cons.injEq] at hsplit
      rw [← hsplit.1] at he
      simp [Event.isProbe, Event.isRead] at he
    | cons p pre =>
      cases pre with
      | nil =>
        simp only [List.cons_append, List.nil_append, List.cons.injEq] at hsplit
        rw [← hsplit.2.1] at he
        simp [Event.isProbe, Event.isRead] at he
      | cons q pre =>
        simp only [List.cons_append, List.cons.injEq] at hsplit
        rw [← hsplit.2.1]
        simp

/-- Claim C6: for every driver, driver state and address, `printTemperature`
makes exactly one `getTempC` call, prints the Celsius value `C` that call
returned and then prints `C × 9/5 + 32`, computed from that same value without
a further device read; over exact rationals a raw reading of 1940 at
0.0625 °C/LSB is 121.25 °C, and on a device reading that value the function
prints 121.25 and 250.25. -/
theorem printTemperature_single_read {σ : Type} (d : Sensors σ) (b : σ)
    (a : DeviceAddress) :
    (printTemperature d b a).1 =
      [Event.getTempC a (d.getTempC b a).1,
       Event.print "Temp C: ",
       Event.printlnFloat (d.getTempC b a).1,
       Event.print "Temp F: ",
       Event.printlnFloat ((d.getTempC b a).1 * 9 / 5 + 32)] ∧
    (printTemperature d b a).1.countP Event.isRead = 1 ∧
    rawToCelsius 1940 = 121.25 ∧
    (printTemperature (staticSensors 1 (fun i => decide (i < 1))) () a).1 =
      [Event.getTempC a 121.25,
       Event.print "Temp C: ",
       Event.printlnFloat 121.25,
       Event.print "Temp F: ",
       Event.printlnFloat 250.25] := by
  refine ⟨rfl, ?_, ?_, ?_⟩
  · simp [printTemperature, List.countP_cons, Event.isRead]
  · norm_num [rawToCelsius]
  · simp only [printTemperature, staticSensors, toFahrenheit, rawToCelsius]
    norm_num

theorem mem_printAddress (a : DeviceAddress) (e : Event) (h : e ∈ printAddress a) :
    e = Event.print "0" ∨ ∃ v, e = Event.printNum v HEX := by
  rw [printAddress_eq] at h
  simp only [List.mem_flatMap, byteEvents] at h
  obtain ⟨i, -, hi⟩ := h
  split at hi <;> simp at hi
  · rcases hi with h | h
    · exact Or.inl h
    · exact Or.inr ⟨_, h⟩
  · exact Or.inr ⟨_, hi⟩

theorem printAddress_marks (a : DeviceAddress) :
    (printAddress a).filterMap Event.mark = [] := by
  rw [List.filterMap_eq_nil_iff]
  intro e he
  rcases mem_printAddress a e he with h | ⟨v, h⟩ <;> rw [h] <;> rfl

theorem printAddress_countP (a : DeviceAddress) (p : Event → Bool)
    (h0 : p (Event.print "0") = false) (hn : ∀ v, p (Event.printNum v HEX) = false) :
    (printAddress a).countP p = 0 := by
  rw [List.countP_eq_zero]
  intro e he
  rcases mem_printAddress a e he with h | ⟨v, h⟩ <;> rw [h] <;> simp [h0, hn]

theorem setupBody_found {σ : Type} (d : Sensors σ) (i : Nat) (s : Sketch σ)
    (hok : (d.getAddress s.sensors s.tempDeviceAddress (i % 256)).1 = true) :
    (setupBody d i s).1 =
      [Event.getAddress (i % 256) true,
       Event.print "Found device ",
       Event.printNum i DEC,
       Event.print " with address: "]
      ++ printAddress (d.getAddress s.sensors s.tempDeviceAddress (i % 256)).2.1
      ++ [Event.println "",
       Event.print "Setting resolution to ",
       Event.printlnNum 12 DEC,
       Event.setResolution
         (d.getAddress s.sensors s.tempDeviceAddress (i % 256)).2.1 12,
       Event.print "Resolution actually set to: ",
       Event.getResolution
         (d.getAddress s.sensors s.tempDeviceAddress (i % 256)).2.1
         ((d.getResolution
            (d.setResolution
              (d.getAddress s.sensors s.tempDeviceAddress (i % 256)).2.2
              (d.getAddress s.sensors s.tempDeviceAddress (i % 256)).2.1 12)
            (d.getAddress s.sensors s.tempDeviceAddress (i % 256)).2.1).1 % 256),
       Event.printNum
         ((d.getResolution
            (d.setResolution
              (d.getAddress s.sensors s.tempDeviceAddress (i % 256)).2.2
              (d.getAddress s.sensors s.tempDeviceAddress (i % 256)).2.1 12)
            (d.getAddress s.sensors s.tempDeviceAddress (i % 256)).2.1).1 % 256) DEC,
       Event.println ""] := by
  simp [setupBody, hok, TEMPERATURE_PRECISION]

theorem setupBody_ghost {σ : Type} (d : Sensors σ) (i : Nat) (s : Sketch σ)
    (hok : (d.getAddress s.sensors s.tempDeviceAddress (i % 256)).1 = false) :
    (setupBody d i s).1 =
      [Event.getAddress (i % 256) false,
       Event.print "Found ghost device at ",
       Event.printNum i DEC,
       Event.print " but could not detect address. Check power and cabling"] := by
  simp [setupBody, hok]

theorem setupBody_marks {σ : Type} (d : Sensors σ) (i : Nat) (s : Sketch σ) :
    (setupBody d i s).1.filterMap Event.mark =
      [Mark.probe (i % 256),
       if (d.getAddress s.sensors s.tempDeviceAddress (i % 256)).1
       then Mark.found else Mark.ghost] := by
  cases hok : (d.getAddress s.sensors s.tempDeviceAddress (i % 256)).1 with
  | true =>
    rw [setupBody_found d i s hok]
    simp [List.filterMap_append, printAddress_marks, List.filterMap_cons, Event.mark]
  | false =>
    rw [setupBody_ghost d i s hok]
    simp [List.filterMap_cons, Event.mark]

theorem setupBody_found_count {σ : Type} (d : Sensors σ) (i : Nat) (s : Sketch σ) :
    (setupBody d i s).1.countP Event.isFoundReport =
      if (d.getAddress s.sensors s.tempDeviceAddress (i % 256)).1 then 1 else 0 := by
  cases hok : (d.getAddress s.sensors s.tempDeviceAddress (i % 256)).1 with
  | true =>
    rw [setupBody_found d i s hok]
    simp [List.countP_cons, Event.isFoundReport,
      printAddress_countP _ Event.isFoundReport rfl (fun _ => rfl)]
  | false =>
    rw [setupBody_ghost d i s hok]
    simp [List.countP_cons, Event.isFoundReport]

theorem setupBody_ghost_count {σ : Type} (d : Sensors σ) (i : Nat) (s : Sketch σ) :
    (setupBody d i s).1.countP Event.isGhostReport =
      if (d.getAddress s.sensors s.tempDeviceAddress (i % 256)).1 then 0 else 1 := by
  cases hok : (d.getAddress s.sensors s.tempDeviceAddress (i % 256)).1 with
  | true =>
    rw [setupBody_found d i s hok]
    simp [List.countP_cons, Event.isGhostReport,
      printAddress_countP _ Event.isGhostReport rfl (fun _ => rfl)]
  | false =>
    rw [setupBody_ghost d i s hok]
    simp [List.countP_cons, Event.isGhostReport]

theorem setupBody_numberOfDevices {σ : Type} (d : Sensors σ) (i : Nat) (s : Sketch σ) :
    (setupBody d i s).2.numberOfDevices = s.numberOfDevices := by
  simp only [setupBody]
  split <;> rfl

theorem setupFor_numberOfDevices {σ : Type} (d : Sensors σ) (n : Nat) :
    ∀ (k i : Nat) (s : Sketch σ), n + 1 - i = k →
      (setupFor d n i s).2.numberOfDevices = s.numberOfDevices := by
  intro k
  induction k with
  | zero =>
    intro i s hk
    rw [setupFor_done d n i s (by omega)]
  | succ k ih =>
    intro i s hk
    rw [setupFor_step d n i s (by omega)]
    simp only
    rw [ih (i + 1) _ (by omega), setupBody_numberOfDevices]

theorem setup_events {σ : Type} (d : Sensors σ) (s : Sketch σ) :
    (setup d s).events =
      [Event.serialBegin 19200,
       Event.println "Start...",
       Event.sensorsBegin,
       Event.getDeviceCount (d.getDeviceCount (d.begin s.sensors) % 256),
       Event.print "Locating devices...",
       Event.print "Found ",
       Event.printNum (d.getDeviceCount (d.begin s.sensors) % 256) DEC,
       Event.println " devices.",
       Event.print "Parasite power is: ",
       Event.isParasitePowerMode (d.isParasitePowerMode (d.begin s.sensors)),
       Event.println (if d.isParasitePowerMode (d.begin s.sensors) then "ON" else "OFF")]
      ++ (setupFor d (d.getDeviceCount (d.begin s.sensors) % 256) 0
            { s with sensors := d.begin s.sensors,
                     numberOfDevices := d.getDeviceCount (d.begin s.sensors) % 256 }).1
      ++ [Event.delay 5000] := rfl

theorem setup_numberOfDevices {σ : Type} (d : Sensors σ) (s : Sketch σ) :
    (setup d s).state.numberOfDevices = d.getDeviceCount (d.begin s.sensors) % 256 := by
  simp only [setup]
  rw [setupFor_numberOfDevices d _ _ 0 _ rfl]

theorem setupFor_marks {σ : Type} (d : Sensors σ) (n : Nat) (hn : n ≤ 255) :
    ∀ (k i : Nat) (s : Sketch σ), n + 1 - i = k →
      ∃ reports : List Mark, reports.length = k ∧
        (∀ r ∈ reports, r = Mark.found ∨ r = Mark.ghost) ∧
        (setupFor d n i s).1.filterMap Event.mark =
          ((List.range' i k).zip reports).flatMap (fun p => [Mark.probe p.1, p.2]) := by
  intro k
  induction k with
  | zero =>
    intro i s hk
    refine ⟨[], rfl, by simp, ?_⟩
    rw [setupFor_done d n i s (by omega)]
    simp
  | succ k ih =>
    intro i s hk
    obtain ⟨reports, hlen, hall, heq⟩ := ih (i + 1) (setupBody d i s).2 (by omega)
    have hmod : i % 256 = i := Nat.mod_eq_of_lt (by omega)
    refine ⟨(if (d.getAddress s.sensors s.tempDeviceAddress (i % 256)).1
        then Mark.found else Mark.ghost) :: reports, by simp [hlen], ?_, ?_⟩
    · intro r hr
      simp only [List.mem_cons] at hr
      rcases hr with h | h
      · rw [h]; split <;> simp
      · exact hall r h
    · rw [setupFor_step d n i s (by omega)]
      simp only [List.filterMap_append, setupBody_marks, heq, hmod]
      simp [List.range'_succ]

/-- Claim C9: for every reported device count `n ≤ 255` (zero included) and
every driver, the discovery loop of `setup` ends, and what it shows is, for the
indices 0, 1, ..., `n` in increasing order, one `getAddress` probe of the index
followed by exactly one report, a found-device or a ghost-device one: `n + 1`
probes, one index past the reported count. -/
theorem setup_probes_zero_to_count {σ : Type} (d : Sensors σ) (s : Sketch σ)
    (n : Nat) (hn : n ≤ 255) (hcount : d.getDeviceCount (d.begin s.sensors) = n) :
    ∃ reports : List Mark, reports.length = n + 1 ∧
      (∀ r ∈ reports, r = Mark.found ∨ r = Mark.ghost) ∧
      (setup d s).events.filterMap Event.mark =
        ((List.range (n + 1)).zip reports).flatMap (fun p => [Mark.probe p.1, p.2]) := by
  have hmod : n % 256 = n := Nat.mod_eq_of_lt (by omega)
  obtain ⟨reports, hlen, hall, heq⟩ := setupFor_marks d n hn (n + 1) 0
    { s with sensors := d.begin s.sensors, numberOfDevices := n } rfl
  refine ⟨reports, hlen, hall, ?_⟩
  rw [setup_events, hcount, hmod]
  simp only [List.filterMap_append, heq, List.range_eq_range']
  simp [List.filterMap_cons, Event.mark]

theorem setupFor_healthy {σ : Type} (d : Sensors σ) (n : Nat) (hn : n ≤ 255)
    (hhealthy : ∀ b buf i, (d.getAddress b buf i).1 = decide (i < n)) :
    ∀ (k i : Nat) (s : Sketch σ), n - i = k → i ≤ n →
      ∃ pre : List Event,
        (setupFor d n i s).1 = pre ++
          [Event.getAddress n false,
           Event.print "Found ghost device at ",
           Event.printNum n DEC,
           Event.print " but could not detect address. Check power and cabling"] ∧
        pre.countP Event.isGhostReport = 0 := by
  intro k
  induction k with
  | zero =>
    intro i s hk hi
    have hin : i = n := by omega
    subst hin
    have hmod : i % 256 = i := Nat.mod_eq_of_lt (by omega)
    refine ⟨[], ?_, rfl⟩
    rw [setupFor_step d i i s (by omega), setupFor_done d i (i + 1) _ (by omega),
      setupBody_ghost d i s (by rw [hhealthy]; simp [hmod])]
    simp [hmod]
  | succ k ih =>
    intro i s hk hi
    obtain ⟨pre, heq, hpre⟩ := ih (i + 1) (setupBody d i s).2 (by omega) (by omega)
    refine ⟨(setupBody d i s).1 ++ pre, ?_, ?_⟩
    · rw [setupFor_step d n i s (by omega)]
      simp only [heq, List.append_assoc]
    · have hok : (d.getAddress s.sensors s.tempDeviceAddress (i % 256)).1 = true := by
        rw [hhealthy]
        have : i % 256 < n := Nat.lt_of_le_of_lt (Nat.mod_le _ _) (by omega)
        simp [this]
      rw [List.countP_append, setupBody_ghost_count, hok, hpre]
      simp

/-- Claim C10: on a healthy bus with `n ≤ 255` devices (reported count `n`,
`getAddress` succeeding exactly for the indices below `n`), `setup` logs
exactly one ghost-device message, and it is the one for index `n`, the last
thing before the closing `delay(5000)`; for `n = 0` that is index 0. -/
theorem healthy_bus_logs_one_ghost {σ : Type} (d : Sensors σ) (s : Sketch σ)
    (n : Nat) (hn : n ≤ 255) (hcount : d.getDeviceCount (d.begin s.sensors) = n)
    (hhealthy : ∀ b buf i, (d.getAddress b buf i).1 = decide (i < n)) :
    (setup d s).events.countP Event.isGhostReport = 1 ∧
    ∃ pre : List Event,
      (setup d s).events = pre ++
        [Event.getAddress n false,
         Event.print "Found ghost device at ",
         Event.printNum n DEC,
         Event.print " but could not detect address. Check power and cabling",
         Event.delay 5000] ∧
      pre.countP Event.isGhostReport = 0 := by
  have hmod : n % 256 = n := Nat.mod_eq_of_lt (by omega)
  obtain ⟨pre, heq, hpre⟩ := setupFor_healthy d n hn hhealthy (n - 0) 0
    { s with sensors := d.begin s.sensors, numberOfDevices := n } rfl (by omega)
  have hev : (setup d s).events =
      ([Event.serialBegin 19200,
        Event.println "Start...",
        Event.sensorsBegin,
        Event.getDeviceCount n,
        Event.print "Locating devices...",
        Event.print "Found ",
        Event.printNum n DEC,
        Event.println " devices.",
        Event.print "Parasite power is: ",
        Event.isParasitePowerMode (d.isParasitePowerMode (d.begin s.sensors)),
        Event.println (if d.isParasitePowerMode (d.begin s.sensors) then "ON" else "OFF")]
        ++ pre) ++
      [Event.getAddress n false,
       Event.print "Found ghost device at ",
       Event.printNum n DEC,
       Event.print " but could not detect address. Check power and cabling",
       Event.delay 5000] := by
    rw [setup_events, hcount, hmod, heq]
    simp
  have hpre2 : ([Event.serialBegin 19200,
        Event.println "Start...",
        Event.sensorsBegin,
        Event.getDeviceCount n,
        Event.print "Locating devices...",
        Event.print "Found ",
        Event.printNum n DEC,
        Event.println " devices.",
        Event.print "Parasite power is: ",
        Event.isParasitePowerMode (d.isParasitePowerMode (d.begin s.sensors)),
        Event.println (if d.isParasitePowerMode (d.begin s.sensors) then "ON" else "OFF")]
        ++ pre).countP Event.isGhostReport = 0 := by
    rw [List.countP_append, hpre]
    simp [List.countP_cons, Event.isGhostReport]
  refine ⟨?_, _, hev, hpre2⟩
  rw [hev, List.countP_append, hpre2]
  simp [List.countP_cons, Event.isGhostReport]

/-- Witness of C10, on the bus of Scenario A. -/
theorem healthy_bus_logs_one_ghost_witness :
    (2 ≤ 255 ∧
     (staticSensors 2 (fun i => decide (i < 2))).getDeviceCount
       ((staticSensors 2 (fun i => decide (i < 2))).begin powerOn.sensors) = 2 ∧
     ∀ b buf i, ((staticSensors 2 (fun i => decide (i < 2))).getAddress b buf i).1
       = decide (i < 2)) ∧
    ((setup (staticSensors 2 (fun i => decide (i < 2))) powerOn).events.countP
        Event.isGhostReport = 1 ∧
     ∃ pre : List Event,
      (setup (staticSensors 2 (fun i => decide (i < 2))) powerOn).events = pre ++
        [Event.getAddress 2 false,
         Event.print "Found ghost device at ",
         Event.printNum 2 DEC,
         Event.print " but could not detect address. Check power and cabling",
         Event.delay 5000] ∧
      pre.countP Event.isGhostReport = 0) :=
  ⟨⟨by decide, rfl, fun b buf i => by simp only [staticSensors]; split <;> simp_all⟩,
   healthy_bus_logs_one_ghost (staticSensors 2 (fun i => decide (i < 2))) powerOn 2
     (by decide) rfl (fun b buf i => by simp only [staticSensors]; split <;> simp_all)⟩

/-- Claim C3: on an empty bus (reported count 0, `getAddress` failing for every
index) `setup` prints no found-device report and issues no `setResolution` or
`getResolution` command (its events are the header, one failed probe of index 0
with its ghost message, and the closing delay), and the read cycle that follows
prints the request/DONE lines and nothing else, makes one failed probe, takes
no reading, reports no error and does not halt. -/
theorem empty_bus_is_quiet {σ : Type} (d : Sensors σ) (s : Sketch σ)
    (hcount : d.getDeviceCount (d.begin s.sensors) = 0)
    (hfail : ∀ b buf i, (d.getAddress b buf i).1 = false) :
    (setup d s).events =
      [Event.serialBegin 19200,
       Event.println "Start...",
       Event.sensorsBegin,
       Event.getDeviceCount 0,
       Event.print "Locating devices...",
       Event.print "Found ",
       Event.printNum 0 DEC,
       Event.println " devices.",
       Event.print "Parasite power is: ",
       Event.isParasitePowerMode (d.isParasitePowerMode (d.begin s.sensors)),
       Event.println (if d.isParasitePowerMode (d.begin s.sensors) then "ON" else "OFF"),
       Event.getAddress 0 false,
       Event.print "Found ghost device at ",
       Event.printNum 0 DEC,
       Event.print " but could not detect address. Check power and cabling",
       Event.delay 5000] ∧
    (setup d s).events.countP Event.isFoundReport = 0 ∧
    (setup d s).events.countP Event.isConfig = 0 ∧
    (loop d (setup d s).state).events =
      [Event.print "Requesting temperatures...",
       Event.requestTemperatures,
       Event.println "DONE",
       Event.getAddress 0 false] ∧
    (loop d (setup d s).state).halted = false := by
  have hev : (setup d s).events =
      [Event.serialBegin 19200,
       Event.println "Start...",
       Event.sensorsBegin,
       Event.getDeviceCount 0,
       Event.print "Locating devices...",
       Event.print "Found ",
       Event.printNum 0 DEC,
       Event.println " devices.",
       Event.print "Parasite power is: ",
       Event.isParasitePowerMode (d.isParasitePowerMode (d.begin s.sensors)),
       Event.println (if d.isParasitePowerMode (d.begin s.sensors) then "ON" else "OFF"),
       Event.getAddress 0 false,
       Event.print "Found ghost device at ",
       Event.printNum 0 DEC,
       Event.print " but could not detect address. Check power and cabling",
       Event.delay 5000] := by
    rw [setup_events, hcount]
    rw [setupFor_step d _ 0 _ (by decide), setupFor_done d _ 1 _ (by decide),
      setupBody_ghost d 0 _ (hfail _ _ _)]
    rfl
  have hn : (setup d s).state.numberOfDevices = 0 := by
    rw [setup_numberOfDevices, hcount]
  refine ⟨hev, ?_, ?_, ?_, ?_⟩
  · rw [hev]; simp [List.countP_cons, Event.isFoundReport]
  · rw [hev]; simp [List.countP_cons, Event.isConfig]
  · simp only [loop, hn]
    rw [loopFor_miss d 0 0 _ (by decide) (hfail _ _ _), loopFor_done d 0 1 _ (by decide)]
    rfl
  · simp only [loop, hn]
    rw [loopFor_miss d 0 0 _ (by decide) (hfail _ _ _), loopFor_done d 0 1 _ (by decide)]

/-- Witness of C3, on a bus that reports no device and resolves no index. -/
theorem empty_bus_is_quiet_witness :
    ((staticSensors 0 (fun _ => false)).getDeviceCount
        ((staticSensors 0 (fun _ => false)).begin powerOn.sensors) = 0 ∧
     ∀ b buf i, ((staticSensors 0 (fun _ => false)).getAddress b buf i).1 = false) ∧
    ((loop (staticSensors 0 (fun _ => false))
        (setup (staticSensors 0 (fun _ => false)) powerOn).state).events =
      [Event.print "Requesting temperatures...",
       Event.requestTemperatures,
       Event.println "DONE",
       Event.getAddress 0 false] ∧
     (loop (staticSensors 0 (fun _ => false))
        (setup (staticSensors 0 (fun _ => false)) powerOn).state).halted = false) :=
  ⟨⟨rfl, fun _ _ _ => rfl⟩,
   (empty_bus_is_quiet (staticSensors 0 (fun _ => false)) powerOn rfl
      (fun _ _ _ => rfl)).2.2.2⟩

/-- Claim C4: on a bus that reports one device and on which exactly one of the
indices 0 and 1 resolves, in either order, `setup` prints exactly one
found-device report and exactly one ghost-device report. -/
theorem one_ghost_one_valid {σ : Type} (d : Sensors σ) (s : Sketch σ)
    (hcount : d.getDeviceCount (d.begin s.sensors) = 1)
    (hone :
      (∀ b buf, (d.getAddress b buf 0).1 = true ∧ (d.getAddress b buf 1).1 = false) ∨
      (∀ b buf, (d.getAddress b buf 0).1 = false ∧ (d.getAddress b buf 1).1 = true)) :
    (setup d s).events.countP Event.isFoundReport = 1 ∧
    (setup d s).events.countP Event.isGhostReport = 1 := by
  rw [setup_events, hcount]
  rw [setupFor_step d _ 0 _ (by decide), setupFor_step d _ 1 _ (by decide),
    setupFor_done d _ 2 _ (by decide)]
  simp only [List.countP_append, setupBody_found_count, setupBody_ghost_count]
  rcases hone with h | h
  · simp [(h _ _).1, (h _ _).2, List.countP_cons, Event.isFoundReport, Event.isGhostReport]
  · simp [(h _ _).1, (h _ _).2, List.countP_cons, Event.isFoundReport, Event.isGhostReport]

/-- Witness of C4, on a bus where index 0 is the ghost and index 1 resolves. -/
theorem one_ghost_one_valid_witness :
    ((staticSensors 1 (fun i => i == 1)).getDeviceCount
        ((staticSensors 1 (fun i => i == 1)).begin powerOn.sensors) = 1 ∧
     ((∀ b buf, ((staticSensors 1 (fun i => i == 1)).getAddress b buf 0).1 = true ∧
          ((staticSensors 1 (fun i => i == 1)).getAddress b buf 1).1 = false) ∨
      (∀ b buf, ((staticSensors 1 (fun i => i == 1)).getAddress b buf 0).1 = false ∧
          ((staticSensors 1 (fun i => i == 1)).getAddress b buf 1).1 = true))) ∧
    ((setup (staticSensors 1 (fun i => i == 1)) powerOn).events.countP
        Event.isFoundReport = 1 ∧
     (setup (staticSensors 1 (fun i => i == 1)) powerOn).events.countP
        Event.isGhostReport = 1) :=
  ⟨⟨rfl, Or.inr (fun _ _ => ⟨rfl, rfl⟩)⟩,
   one_ghost_one_valid (staticSensors 1 (fun i => i == 1)) powerOn rfl
     (Or.inr (fun _ _ => ⟨rfl, rfl⟩))⟩

/-- Witness of C9, on the bus of Scenario A. -/
theorem setup_probes_zero_to_count_witness :
    (2 ≤ 255 ∧
     (staticSensors 2 (fun i => decide (i < 2))).getDeviceCount
       ((staticSensors 2 (fun i => decide (i < 2))).begin powerOn.sensors) = 2) ∧
    ∃ reports : List Mark, reports.length = 2 + 1 ∧
      (∀ r ∈ reports, r = Mark.found ∨ r = Mark.ghost) ∧
      (setup (staticSensors 2 (fun i => decide (i < 2))) powerOn).events.filterMap
          Event.mark =
        ((List.range (2 + 1)).zip reports).flatMap (fun p => [Mark.probe p.1, p.2]) :=
  ⟨⟨by decide, rfl⟩,
   setup_probes_zero_to_count (staticSensors 2 (fun i => decide (i < 2))) powerOn 2
     (by decide) rfl⟩

theorem setupFor_reaches {σ : Type} (d : Sensors σ) (n : Nat) (s : Sketch σ) :
    ∀ i, i ≤ n + 1 →
      ∃ (pre : List Event) (si : Sketch σ),
        (setupFor d n 0 s).1 = pre ++ (setupFor d n i si).1 := by
  intro i
  induction i with
  | zero => intro _; exact ⟨[], s, rfl⟩
  | succ i ih =>
    intro hi
    obtain ⟨pre, si, heq⟩ := ih (by omega)
    refine ⟨pre ++ (setupBody d i si).1, (setupBody d i si).2, ?_⟩
    rw [heq, setupFor_step d n i si (by omega)]
    simp

/-- Claim C8: during `setup`, every index `i` of the scan (`i ≤ n`, the
reported count) is reached, in some state `si` of the globals, and there: if
the address resolves, the firmware reports the device, issues
`setResolution(address, 12)` and then `getResolution(address)` on the address
just resolved, prints the value `getResolution` returned, and goes on with
index `i + 1`; if it does not resolve, the firmware prints the ghost-device
report, issues no configuration command, and goes on with index `i + 1`. -/
theorem setup_configures_each_resolved {σ : Type} (d : Sensors σ) (s : Sketch σ)
    (n i : Nat) (hn : n ≤ 255) (hcount : d.getDeviceCount (d.begin s.sensors) = n)
    (hi : i ≤ n) :
    ∃ (pre : List Event) (si : Sketch σ),
      (setup d s).events = pre ++ (setupFor d n i si).1 ++ [Event.delay 5000] ∧
      ((d.getAddress si.sensors si.tempDeviceAddress i).1 = true →
        ∃ (address : DeviceAddress) (bits : Nat),
          address = (d.getAddress si.sensors si.tempDeviceAddress i).2.1 ∧
          bits = (d.getResolution
            (d.setResolution (d.getAddress si.sensors si.tempDeviceAddress i).2.2
              address 12) address).1 % 256 ∧
          (setupFor d n i si).1 =
            [Event.getAddress i true,
             Event.print "Found device ",
             Event.printNum i DEC,
             Event.print " with address: "]
            ++ printAddress address
            ++ [Event.println "",
             Event.print "Setting resolution to ",
             Event.printlnNum 12 DEC,
             Event.setResolution address 12,
             Event.print "Resolution actually set to: ",
             Event.getResolution address bits,
             Event.printNum bits DEC,
             Event.println ""]
            ++ (setupFor d n (i + 1) (setupBody d i si).2).1) ∧
      ((d.getAddress si.sensors si.tempDeviceAddress i).1 = false →
        (setupFor d n i si).1 =
          [Event.getAddress i false,
           Event.print "Found ghost device at ",
           Event.printNum i DEC,
           Event.print " but could not detect address. Check power and cabling"]
          ++ (setupFor d n (i + 1) (setupBody d i si).2).1) := by
  have hmodn : n % 256 = n := Nat.mod_eq_of_lt (by omega)
  have hmod : i % 256 = i := Nat.mod_eq_of_lt (by omega)
  obtain ⟨pre, si, heq⟩ := setupFor_reaches d n
    { s with sensors := d.begin s.sensors, numberOfDevices := n } i (by omega)
  refine ⟨[Event.serialBegin 19200,
       Event.println "Start...",
       Event.sensorsBegin,
       Event.getDeviceCount n,
       Event.print "Locating devices...",
       Event.print "Found ",
       Event.printNum n DEC,
       Event.println " devices.",
       Event.print "Parasite power is: ",
       Event.isParasitePowerMode (d.isParasitePowerMode (d.begin s.sensors)),
       Event.println (if d.isParasitePowerMode (d.begin s.sensors) then "ON" else "OFF")]
      ++ pre, si, ?_, ?_, ?_⟩
  · rw [setup_events, hcount, hmodn, heq]
    simp only [List.append_assoc]
  · intro hok
    refine ⟨_, _, rfl, rfl, ?_⟩
    rw [setupFor_step d n i si (by omega)]
    simp only
    rw [setupBody_found d i si (by rw [hmod]; exact hok), hmod]
  · intro hok
    rw [setupFor_step d n i si (by omega)]
    simp only
    rw [setupBody_ghost d i si (by rw [hmod]; exact hok), hmod]

/-- Witness of C8, at index 1 of the bus of Scenario A. -/
theorem setup_configures_each_resolved_witness :
    (2 ≤ 255 ∧
     twoDevices.getDeviceCount (twoDevices.begin powerOn.sensors) = 2 ∧ 1 ≤ 2) ∧
    ∃ (pre : List Event) (si : Sketch Unit),
      (setup twoDevices powerOn).events =
        pre ++ (setupFor twoDevices 2 1 si).1 ++ [Event.delay 5000] ∧
      ((twoDevices.getAddress si.sensors si.tempDeviceAddress 1).1 = true →
        ∃ (address : DeviceAddress) (bits : Nat),
          address = (twoDevices.getAddress si.sensors si.tempDeviceAddress 1).2.1 ∧
          bits = (twoDevices.getResolution
            (twoDevices.setResolution
              (twoDevices.getAddress si.sensors si.tempDeviceAddress 1).2.2
              address 12) address).1 % 256 ∧
          (setupFor twoDevices 2 1 si).1 =
            [Event.getAddress 1 true,
             Event.print "Found device ",
             Event.printNum 1 DEC,
             Event.print " with address: "]
            ++ printAddress address
            ++ [Event.println "",
             Event.print "Setting resolution to ",
             Event.printlnNum 12 DEC,
             Event.setResolution address 12,
             Event.print "Resolution actually set to: ",
             Event.getResolution address bits,
             Event.printNum bits DEC,
             Event.println ""]
            ++ (setupFor twoDevices 2 (1 + 1) (setupBody twoDevices 1 si).2).1) ∧
      ((twoDevices.getAddress si.sensors si.tempDeviceAddress 1).1 = false →
        (setupFor twoDevices 2 1 si).1 =
          [Event.getAddress 1 false,
           Event.print "Found ghost device at ",
           Event.printNum 1 DEC,
           Event.print " but could not detect address. Check power and cabling"]
          ++ (setupFor twoDevices 2 (1 + 1) (setupBody twoDevices 1 si).2).1) :=
  ⟨⟨by decide, rfl, by decide⟩,
   setup_configures_each_resolved twoDevices powerOn 2 1 (by decide) rfl (by decide)⟩

/-- Claim C2, at the bus of Scenario A (two valid devices, reported count 2):
the read cycle after `setup` probes index 0, prints the reading of device 0 and
enters deep sleep; index 1, which resolves, is never probed, and the cycle
holds one reading, not two. -/
theorem loop_two_devices_halts_after_first :
    (twoDevices.getAddress () (fun _ => 0) 1).1 = true ∧
    (loop twoDevices (setup twoDevices powerOn).state).events =
      [Event.print "Requesting temperatures...",
       Event.requestTemperatures,
       Event.println "DONE",
       Event.getAddress 0 true,
       Event.print "Temperature for device: ",
       Event.printlnNum 0 DEC,
       Event.getTempC (fun _ => 0) (rawToCelsius 1940),
       Event.print "Temp C: ",
       Event.printlnFloat (rawToCelsius 1940),
       Event.print "Temp F: ",
       Event.printlnFloat (toFahrenheit (rawToCelsius 1940)),
       Event.delay 1000,
       Event.serialFlush,
       Event.deepSleepStart] ∧
    (loop twoDevices (setup twoDevices powerOn).state).events.countP Event.isReading = 1 ∧
    (loop twoDevices (setup twoDevices powerOn).state).halted = true := by
  have hn : (setup twoDevices powerOn).state.numberOfDevices = 2 := by
    rw [setup_numberOfDevices]; rfl
  have hl : loop twoDevices (setup twoDevices powerOn).state =
      { events :=
          [Event.print "Requesting temperatures...",
           Event.requestTemperatures,
           Event.println "DONE",
           Event.getAddress 0 true,
           Event.print "Temperature for device: ",
           Event.printlnNum 0 DEC,
           Event.getTempC (fun _ => 0) (rawToCelsius 1940),
           Event.print "Temp C: ",
           Event.printlnFloat (rawToCelsius 1940),
           Event.print "Temp F: ",
           Event.printlnFloat (toFahrenheit (rawToCelsius 1940)),
           Event.delay 1000,
           Event.serialFlush,
           Event.deepSleepStart],
        state :=
          { sensors := (), numberOfDevices := 2, tempDeviceAddress := fun _ => 0 },
        halted := true } := by
    simp only [loop, hn]
    rw [loopFor_hit twoDevices 2 0 _ (by decide) rfl]
    rfl
  rw [hl]
  refine ⟨rfl, rfl, ?_, rfl⟩
  simp [List.countP_cons, Event.isReading]

/-- Counterexample to C5, on a bus that reports one device and on which index 0
does not resolve and index 1 does: index 0 is in the scanned range, its probe
fails, and the next event of the cycle is the probe of index 1 (from the first
probe on, the cycle's first two events are the two probes); the cycle emits no
report for index 0. -/
theorem loop_unresolved_index_no_report :
    (ghostThenValid.getAddress () (fun _ => 0) 0).1 = false ∧
    (loop ghostThenValid (setup ghostThenValid powerOn).state).events =
      [Event.print "Requesting temperatures...",
       Event.requestTemperatures,
       Event.println "DONE",
       Event.getAddress 0 false,
       Event.getAddress 1 true,
       Event.print "Temperature for device: ",
       Event.printlnNum 1 DEC,
       Event.getTempC (fun _ => 1) (rawToCelsius 1940),
       Event.print "Temp C: ",
       Event.printlnFloat (rawToCelsius 1940),
       Event.print "Temp F: ",
       Event.printlnFloat (toFahrenheit (rawToCelsius 1940)),
       Event.delay 1000,
       Event.serialFlush,
       Event.deepSleepStart] ∧
    ((loop ghostThenValid (setup ghostThenValid powerOn).state).events.dropWhile
        (fun e => !e.isProbe)).take 2 =
      [Event.getAddress 0 false, Event.getAddress 1 true] := by
  have hn : (setup ghostThenValid powerOn).state.numberOfDevices = 1 := by
    rw [setup_numberOfDevices]; rfl
  have hev : (loop ghostThenValid (setup ghostThenValid powerOn).state).events =
      [Event.print "Requesting temperatures...",
       Event.requestTemperatures,
       Event.println "DONE",
       Event.getAddress 0 false,
       Event.getAddress 1 true,
       Event.print "Temperature for device: ",
       Event.printlnNum 1 DEC,
       Event.getTempC (fun _ => 1) (rawToCelsius 1940),
       Event.print "Temp C: ",
       Event.printlnFloat (rawToCelsius 1940),
       Event.print "Temp F: ",
       Event.printlnFloat (toFahrenheit (rawToCelsius 1940)),
       Event.delay 1000,
       Event.serialFlush,
       Event.deepSleepStart] := by
    simp only [loop, hn]
    rw [loopFor_miss ghostThenValid 1 0 _ (by decide) rfl,
      loopFor_hit ghostThenValid 1 1 _ (by decide) rfl]
    rfl
  refine ⟨rfl, hev, ?_⟩
  rw [hev]
  rfl

/-- Claim C5 as amended: in the read loop, at every index `i` of the scanned
range whose address does not resolve, the cycle emits nothing for that index
after the failed `getAddress` call, and goes on with index `i + 1`: the rest of
the cycle, its halting included, is that of the loop from `i + 1`. -/
theorem loop_skips_unresolved_silently {σ : Type} (d : Sensors σ) (n i : Nat)
    (s : Sketch σ) (hn : n ≤ 255) (hi : i ≤ n)
    (hfail : (d.getAddress s.sensors s.tempDeviceAddress i).1 = false) :
    (loopFor d n i s).events =
      Event.getAddress i false ::
        (loopFor d n (i + 1)
          { s with
            sensors := (d.getAddress s.sensors s.tempDeviceAddress i).2.2,
            tempDeviceAddress :=
              (d.getAddress s.sensors s.tempDeviceAddress i).2.1 }).events ∧
    (loopFor d n i s).halted =
      (loopFor d n (i + 1)
          { s with
            sensors := (d.getAddress s.sensors s.tempDeviceAddress i).2.2,
            tempDeviceAddress :=
              (d.getAddress s.sensors s.tempDeviceAddress i).2.1 }).halted := by
  have hmod : i % 256 = i := Nat.mod_eq_of_lt (by omega)
  rw [loopFor_miss d n i s (by omega) (by rw [hmod]; exact hfail), hmod]
  exact ⟨rfl, rfl⟩

/-- Witness of the amended C5, at index 0 of a bus whose index 0 does not
resolve. -/
theorem loop_skips_unresolved_silently_witness :
    (1 ≤ 255 ∧ 0 ≤ 1 ∧
     (ghostThenValid.getAddress powerOn.sensors powerOn.tempDeviceAddress 0).1 = false) ∧
    ((loopFor ghostThenValid 1 0 powerOn).events =
      Event.getAddress 0 false ::
        (loopFor ghostThenValid 1 (0 + 1)
          { powerOn with
            sensors :=
              (ghostThenValid.getAddress powerOn.sensors powerOn.tempDeviceAddress 0).2.2,
            tempDeviceAddress :=
              (ghostThenValid.getAddress powerOn.sensors
                powerOn.tempDeviceAddress 0).2.1 }).events ∧
     (loopFor ghostThenValid 1 0 powerOn).halted =
      (loopFor ghostThenValid 1 (0 + 1)
          { powerOn with
            sensors :=
              (ghostThenValid.getAddress powerOn.sensors powerOn.tempDeviceAddress 0).2.2,
            tempDeviceAddress :=
              (ghostThenValid.getAddress powerOn.sensors
                powerOn.tempDeviceAddress 0).2.1 }).halted) :=
  ⟨⟨by decide, by decide, rfl⟩,
   loop_skips_unresolved_silently ghostThenValid 1 0 powerOn (by decide) (by decide) rfl⟩

end DS18B20
